import Mathlib

/-!
Verification of the response-validation and domain-mapping layer of the
bvg-board repository (`src/bvg_board/bvg_api.py` and `src/bvg_board/weather.py`).

Raw decoded JSON is modelled by the inductive `Json`; Python floats are
modelled as exact rationals (`Rat`), Python ints as `Int`.  Following
Python semantics, a boolean passes an `isinstance(_, int)` check (bool is
a subclass of int), `dict.get` returns `None` both for an absent key and
for a key holding JSON null, and `x or y` selects by truthiness.
Fallible mapping functions return `Except String α`, carrying the exact
error-message strings of the source.
-/

/-- A decoded JSON value, as handed to the mappers after HTTP decoding. -/
inductive Json where
  | null
  | bool (b : Bool)
  | int (n : Int)
  | float (q : Rat)
  | str (s : String)
  | arr (items : List Json)
  | obj (fields : List (String × Json))

/-- Python `dict.get(key)`: the value of the first binding of `key`, and
`None` (modelled as `Json.null`) when the key is absent or the receiver is
not an object.  JSON null and an absent key are indistinguishable here,
exactly as for `dict.get`. -/
def getField : List (String × Json) → String → Json
  | [], _ => .null
  | (k, v) :: rest, key => if k = key then v else getField rest key

def Json.getD : Json → String → Json
  | .obj fs, key => getField fs key
  | _, _ => .null

/-- Python truthiness of a decoded JSON value (`None`, `False`, `0`, `0.0`,
`""`, `[]`, `{}` are falsy). -/
def Json.truthy : Json → Bool
  | .null => false
  | .bool b => b
  | .int n => n != 0
  | .float q => decide (q ≠ 0)
  | .str s => !s.isEmpty
  | .arr xs => !xs.isEmpty
  | .obj fs => !fs.isEmpty

/-- Python `isinstance(v, str)`. -/
def isStr : Json → Bool
  | .str _ => true
  | _ => false

/-- Python `isinstance(v, int)`: `True`/`False` are instances of `int`. -/
def isIntLike : Json → Bool
  | .int _ => true
  | .bool _ => true
  | _ => false

/-- Python `isinstance(v, int | float)`: ints, bools and floats. -/
def isNumberLike : Json → Bool
  | .int _ => true
  | .bool _ => true
  | .float _ => true
  | _ => false

/-- Python `isinstance(v, bool)`. -/
def isBool : Json → Bool
  | .bool _ => true
  | _ => false

/-- Python `float(v)` on a value accepted by `isinstance(v, int | float)`,
with floats modelled as exact rationals. -/
def pyFloat : Json → Rat
  | .int n => (n : Rat)
  | .bool b => if b then 1 else 0
  | .float q => q
  | _ => 0

/-- Python `int(v)` on a value accepted by `isinstance(v, int | float)`:
floats are truncated toward zero. -/
def ratTrunc (q : Rat) : Int := if q < 0 then q.ceil else q.floor

def isOkE {ε α : Type} : Except ε α → Bool
  | .ok _ => true
  | .error _ => false

def isErrorE {ε α : Type} : Except ε α → Bool
  | .ok _ => false
  | .error _ => true

namespace BvgApi

/-- Embeds the `Location` dataclass of `bvg_api.py`. -/
structure Location where
  latitude : Rat
  longitude : Rat
deriving DecidableEq, Repr

/-- Embeds the `Stop` dataclass of `bvg_api.py`. -/
structure Stop where
  id : String
  name : String
  kind : String
  location : Location
  distance_m : Option Int
deriving DecidableEq, Repr

/-- Result of `datetime.fromisoformat`: a naive or offset-aware datetime. -/
structure PyDateTime where
  year : Nat
  month : Nat
  day : Nat
  hour : Nat
  minute : Nat
  second : Nat
  offsetMinutes : Option Int
deriving DecidableEq, Repr

/-- Embeds the `Departure` dataclass of `bvg_api.py`. -/
structure Departure where
  line_name : String
  direction : String
  when : PyDateTime
  delay_seconds : Option Int
  platform : Option String
  remarks : List String
deriving DecidableEq, Repr

def isLeapYear (y : Nat) : Bool := (y % 4 == 0 && y % 100 != 0) || y % 400 == 0

def daysInMonth (y m : Nat) : Nat :=
  if m = 2 then (if isLeapYear y then 29 else 28)
  else if m = 4 ∨ m = 6 ∨ m = 9 ∨ m = 11 then 30
  else 31

def digitVal (c : Char) : Nat := c.toNat - 48

def allDigits (cs : List Char) : Bool := cs.all (·.isDigit)

def digitsToNat (cs : List Char) : Nat := cs.foldl (fun a c => a * 10 + digitVal c) 0

/-- Modelled from the spec: a UTC-offset suffix `±HH:MM` of an ISO-8601
string (the parser itself, the CPython `datetime.fromisoformat`, is standard
library code outside this repository). -/
def parseOffsetTail : List Char → Option Int
  | [sign, h1, h2, ':', m1, m2] =>
    if (sign == '+' || sign == '-') && allDigits [h1, h2, m1, m2] then
      let hh := digitsToNat [h1, h2]
      let mm := digitsToNat [m1, m2]
      if hh < 24 ∧ mm < 60 then
        let total : Int := hh * 60 + mm
        some (if sign == '-' then -total else total)
      else none
    else none
  | _ => none

def finishTime (h1 h2 m1 m2 s1 s2 : Char) (off : Option Int) :
    Option (Nat × Nat × Nat × Option Int) :=
  if allDigits [h1, h2, m1, m2, s1, s2] then
    let h := digitsToNat [h1, h2]
    let mi := digitsToNat [m1, m2]
    let se := digitsToNat [s1, s2]
    if h < 24 ∧ mi < 60 ∧ se < 60 then some (h, mi, se, off) else none
  else none

/-- Modelled from the spec: the time-of-day part `HH:MM[:SS][±HH:MM]` of an
ISO-8601 string. -/
def parseTime : List Char → Option (Nat × Nat × Nat × Option Int)
  | h1 :: h2 :: ':' :: m1 :: m2 :: rest =>
    match rest with
    | [] => finishTime h1 h2 m1 m2 '0' '0' none
    | ':' :: s1 :: s2 :: rest2 =>
      match rest2 with
      | [] => finishTime h1 h2 m1 m2 s1 s2 none
      | _ =>
        match parseOffsetTail rest2 with
        | some off => finishTime h1 h2 m1 m2 s1 s2 off
        | none => none
    | _ =>
      match parseOffsetTail rest with
      | some off => finishTime h1 h2 m1 m2 '0' '0' off
      | none => none
  | _ => none

/-- Modelled from the spec: `datetime.fromisoformat` is standard library
code outside this repository; the spec says `when` "is parsed from an
ISO-8601 string" with an optional UTC offset preserved as given.  This
model accepts the subset `YYYY-MM-DD[{T or space}HH:MM[:SS][±HH:MM]]`
with calendar-valid dates, returning `none` on anything else. -/
def fromisoformat (s : String) : Option PyDateTime :=
  match s.toList with
  | y1 :: y2 :: y3 :: y4 :: '-' :: mo1 :: mo2 :: '-' :: d1 :: d2 :: rest =>
    if allDigits [y1, y2, y3, y4, mo1, mo2, d1, d2] then
      let y := digitsToNat [y1, y2, y3, y4]
      let mo := digitsToNat [mo1, mo2]
      let d := digitsToNat [d1, d2]
      if 1 ≤ mo ∧ mo ≤ 12 ∧ 1 ≤ d ∧ d ≤ daysInMonth y mo then
        match rest with
        | [] => some ⟨y, mo, d, 0, 0, 0, none⟩
        | sep :: timeChars =>
          if sep == 'T' || sep == ' ' then
            match parseTime timeChars with
            | some (h, mi, se, off) => some ⟨y, mo, d, h, mi, se, off⟩
            | none => none
          else none
      else none
    else none
  | _ => none

/-- Embeds `_as_str` of `bvg_api.py`. -/
def asStr (value : Json) (key : String) : Except String String :=
  match value with
  | .str s => .ok s
  | _ => .error (key ++ " must be a string")

/-- Embeds `_as_optional_str` of `bvg_api.py`. -/
def asOptionalStr (value : Json) (key : String) : Except String (Option String) :=
  match value with
  | .null => .ok none
  | .str s => .ok (some s)
  | _ => .error (key ++ " must be a string")

/-- Embeds `_as_float` of `bvg_api.py`: `isinstance(value, int | float)` then
`float(value)`. -/
def asFloat (value : Json) (key : String) : Except String Rat :=
  if isNumberLike value then .ok (pyFloat value)
  else .error (key ++ " must be a number")

/-- Embeds `_as_optional_int` of `bvg_api.py`: `None` passes through; the
`isinstance(value, int)` check also accepts booleans (coerced 1/0). -/
def asOptionalInt (value : Json) (key : String) : Except String (Option Int) :=
  match value with
  | .null => .ok none
  | .int n => .ok (some n)
  | .bool b => .ok (some (if b then 1 else 0))
  | _ => .error (key ++ " must be an integer")

/-- Python `str.lower` on one character, for the ASCII range that the
`locationType` and `type` fields use. -/
def pyCharLower (c : Char) : Char :=
  if 'A' ≤ c ∧ c ≤ 'Z' then Char.ofNat (c.toNat + 32) else c

/-- Python `str.lower` (ASCII model). -/
def pyLower (s : String) : String := String.mk (s.data.map pyCharLower)

/-- Embeds `_parse_stop_kind` of `bvg_api.py`. -/
def parse_stop_kind (value : Json) : String :=
  match value with
  | .str s =>
    let normalized := pyLower s
    if normalized = "station" ∨ normalized = "stop" then normalized else "stop"
  | _ => "stop"

/-- Embeds `_parse_location` of `bvg_api.py`. -/
def parse_location (data : Json) (key : String) : Except String Location :=
  match data with
  | .obj _ =>
    match asFloat (data.getD "latitude") (key ++ ".latitude") with
    | .error m => .error m
    | .ok latitude =>
      match asFloat (data.getD "longitude") (key ++ ".longitude") with
      | .error m => .error m
      | .ok longitude => .ok ⟨latitude, longitude⟩
  | _ => .error (key ++ " must be an object")

/-- Embeds `_parse_datetime` of `bvg_api.py`. -/
def parse_datetime (value : Json) : Except String PyDateTime :=
  match value with
  | .str s =>
    match fromisoformat s with
    | some dt => .ok dt
    | none => .error ("Invalid datetime in departure: " ++ s)
  | _ => .error "departure.when must be an ISO datetime string"

/-- The loop body of `_parse_remarks`: keep `summary` strings of dict
items, skip everything else. -/
def remarksFrom : List Json → List String
  | [] => []
  | item :: rest =>
    match item with
    | .obj _ =>
      match item.getD "summary" with
      | .str s => s :: remarksFrom rest
      | _ => remarksFrom rest
    | _ => remarksFrom rest

/-- Embeds `_parse_remarks` of `bvg_api.py`: total, never raises. -/
def parse_remarks (value : Json) : List String :=
  match value with
  | .arr items => remarksFrom items
  | _ => []

/-- Embeds `_parse_stop` of `bvg_api.py`. -/
def parse_stop (data : Json) : Except String Stop :=
  match data with
  | .obj _ =>
    match asStr (data.getD "id") "stop.id" with
    | .error m => .error m
    | .ok stop_id =>
      match asStr (data.getD "name") "stop.name" with
      | .error m => .error m
      | .ok name =>
        let kind := parse_stop_kind
          (if (data.getD "locationType").truthy then data.getD "locationType"
           else data.getD "type")
        match parse_location (data.getD "location") "stop.location" with
        | .error m => .error m
        | .ok location =>
          let distance_value := data.getD "distance"
          let distance_m :=
            if isNumberLike distance_value then some (ratTrunc (pyFloat distance_value))
            else none
          .ok ⟨stop_id, name, kind, location, distance_m⟩
  | _ => .error "Stop entry must be an object"

/-- Lines 153-158 of `bvg_api.py`: `line_name` defaults to `"?"` unless the
nested `line` object has a string `name`. -/
def lineNameOf (data : Json) : String :=
  match data.getD "line" with
  | .obj lfs =>
    match getField lfs "name" with
    | .str s => s
    | _ => "?"
  | _ => "?"

/-- Line 161 of `bvg_api.py`: `data.get("when") or data.get("plannedWhen")` —
the first present and truthy of the two fields (Python `or`). -/
def whenSource (data : Json) : Json :=
  if (data.getD "when").truthy then data.getD "when" else data.getD "plannedWhen"

/-- Embeds `_parse_departure` of `bvg_api.py`. -/
def parse_departure (data : Json) : Except String Departure :=
  match data with
  | .obj _ =>
    let line_name := lineNameOf data
    match asStr (data.getD "direction") "departure.direction" with
    | .error m => .error m
    | .ok direction =>
      match parse_datetime (whenSource data) with
      | .error m => .error m
      | .ok whendt =>
        match asOptionalInt (data.getD "delay") "departure.delay" with
        | .error m => .error m
        | .ok delay_seconds =>
          match asOptionalStr (data.getD "platform") "departure.platform" with
          | .error m => .error m
          | .ok platform =>
            .ok ⟨line_name, direction, whendt, delay_seconds, platform,
                 parse_remarks (data.getD "remarks")⟩
  | _ => .error "Departure entry must be an object"

/-- Entry `map_stop` of the spec: the stop mapper applied to one raw JSON value
(`_parse_stop`, reached through `BvgClient.stop`). -/
def map_stop : Json → Except String Stop := parse_stop

/-- Strict in-order mapping of the departures list: the list comprehension
`[_parse_departure(item) for item in items]`, where the first raised error
aborts the whole call. -/
def mapDepartureItems : List Json → Except String (List Departure)
  | [] => .ok []
  | x :: xs =>
    match parse_departure x with
    | .error m => .error m
    | .ok d =>
      match mapDepartureItems xs with
      | .error m => .error m
      | .ok ds => .ok (d :: ds)

/-- Entry `map_departures` of the spec: the payload-shape checks and element
mapping of `BvgClient.departures` after the HTTP fetch. -/
def map_departures (raw : Json) : Except String (List Departure) :=
  match raw with
  | .obj _ =>
    match raw.getD "departures" with
    | .arr items => mapDepartureItems items
    | _ => .error "Departures payload is missing the departures list"
  | _ => .error "Unexpected response shape for departures"

/-- Strict in-order mapping of the nearby list, `[_parse_stop(item) for
item in raw]`. -/
def mapStopItems : List Json → Except String (List Stop)
  | [] => .ok []
  | x :: xs =>
    match parse_stop x with
    | .error m => .error m
    | .ok s =>
      match mapStopItems xs with
      | .error m => .error m
      | .ok ss => .ok (s :: ss)

/-- Entry `map_nearby` of the spec: the shape check and element mapping of
`BvgClient.nearby` after the HTTP fetch. -/
def map_nearby (raw : Json) : Except String (List Stop) :=
  match raw with
  | .arr items => mapStopItems items
  | _ => .error "Unexpected response shape for nearby locations"

end BvgApi

namespace Weather

/-- Embeds the `CurrentWeather` dataclass of `weather.py`. -/
structure CurrentWeather where
  temperature_c : Rat
  apparent_temperature_c : Option Rat
  wind_speed_kmh : Option Rat
  weather_code : Option Int
  is_day : Option Bool
deriving DecidableEq, Repr

/-- Embeds `_as_float` of `weather.py`. -/
def asFloat (value : Json) (key : String) : Except String Rat :=
  if isNumberLike value then .ok (pyFloat value)
  else .error (key ++ " must be a number")

/-- Embeds `_as_optional_float` of `weather.py`. -/
def asOptionalFloat (value : Json) (key : String) : Except String (Option Rat) :=
  match value with
  | .null => .ok none
  | _ =>
    if isNumberLike value then .ok (some (pyFloat value))
    else .error (key ++ " must be a number")

/-- Embeds `_as_optional_int` of `weather.py`: strict `isinstance(value, int)`
(floats rejected; booleans pass, being int subclasses). -/
def asOptionalInt (value : Json) (key : String) : Except String (Option Int) :=
  match value with
  | .null => .ok none
  | .int n => .ok (some n)
  | .bool b => .ok (some (if b then 1 else 0))
  | _ => .error (key ++ " must be an integer")

/-- Embeds `_as_optional_bool` of `weather.py`: booleans pass through; integers
coerce with `bool(value)`. -/
def asOptionalBool (value : Json) (key : String) : Except String (Option Bool) :=
  match value with
  | .null => .ok none
  | .bool b => .ok (some b)
  | .int n => .ok (some (n != 0))
  | _ => .error (key ++ " must be a boolean")

/-- Lines 65-73 of `weather.py`: the `CurrentWeather` construction from the
validated `current` object. -/
def map_current_fields (current : Json) : Except String CurrentWeather :=
  match asFloat (current.getD "temperature_2m") "current.temperature_2m" with
  | .error m => .error m
  | .ok temperature_c =>
    match asOptionalFloat (current.getD "apparent_temperature")
        "current.apparent_temperature" with
    | .error m => .error m
    | .ok apparent_temperature_c =>
      match asOptionalFloat (current.getD "wind_speed_10m") "current.wind_speed_10m" with
      | .error m => .error m
      | .ok wind_speed_kmh =>
        match asOptionalInt (current.getD "weather_code") "current.weather_code" with
        | .error m => .error m
        | .ok weather_code =>
          match asOptionalBool (current.getD "is_day") "current.is_day" with
          | .error m => .error m
          | .ok is_day =>
            .ok ⟨temperature_c, apparent_temperature_c, wind_speed_kmh,
                 weather_code, is_day⟩

/-- Entry `map_current_weather` of the spec: the payload-shape checks and field
extraction of `WeatherClient.current_weather` after the HTTP fetch. -/
def map_current_weather (payload : Json) : Except String CurrentWeather :=
  match payload with
  | .obj _ =>
    match payload.getD "current" with
    | .obj cfs => map_current_fields (.obj cfs)
    | _ => .error "Weather payload is missing current weather data"
  | _ => .error "Unexpected weather response shape"

end Weather

/-- Membership of a `summary` item: the `summary` string of a dict item,
`none` for any other shape.  Spec-side characterization of the remarks
policy, to be compared with `parse_remarks`. -/
def summaryOf (item : Json) : Option String :=
  match item with
  | .obj _ =>
    match item.getD "summary" with
    | .str s => some s
    | _ => none
  | _ => none

/-- Acceptance predicate of `_as_optional_float` of `weather.py`. -/
def optFloatOk : Json → Bool
  | .null => true
  | v => isNumberLike v

/-- Value computed by `_as_optional_float` of `weather.py` on accepted input. -/
def optFloatVal : Json → Option Rat
  | .null => none
  | v => some (pyFloat v)

/-- Acceptance predicate of `_as_optional_int` of `weather.py`. -/
def optIntOk : Json → Bool
  | .null => true
  | v => isIntLike v

/-- Value computed by `_as_optional_int` of `weather.py` on accepted input. -/
def optIntVal : Json → Option Int
  | .null => none
  | .int n => some n
  | .bool b => some (if b then 1 else 0)
  | _ => none

/-- Acceptance predicate of `_as_optional_bool` of `weather.py`. -/
def optBoolOk : Json → Bool
  | .null => true
  | .bool _ => true
  | .int _ => true
  | _ => false

/-- Value computed by `_as_optional_bool` of `weather.py` on accepted input. -/
def optBoolVal : Json → Option Bool
  | .null => none
  | .bool b => some b
  | .int n => some (n != 0)
  | _ => none

/-! Concrete JSON inputs used by witnesses and counterexamples. -/

/-- Stop JSON of the spec scenario: no `distance`, float coordinates. -/
def ex4 : Json := .obj [("id", .str "1"), ("name", .str "X"),
  ("location", .obj [("latitude", .float 52.5), ("longitude", .float 13.4)])]

/-- Stop JSON with an integer latitude, exercising int-to-float widening. -/
def ex4i : Json := .obj [("id", .str "7"), ("name", .str "N"),
  ("location", .obj [("latitude", .int 52), ("longitude", .float 13.4)])]

/-- Stop JSON with `distance: 120.7`. -/
def stop120 : Json := .obj [("id", .str "1"), ("name", .str "X"),
  ("location", .obj [("latitude", .float 52.5), ("longitude", .float 13.4)]),
  ("distance", .float 120.7)]

/-- Stop JSON with a negative `distance`. -/
def stopNeg : Json := .obj [("id", .str "1"), ("name", .str "X"),
  ("location", .obj [("latitude", .float 52.5), ("longitude", .float 13.4)]),
  ("distance", .int (-5))]

/-- Stop JSON whose `locationType` is falsy (empty string) and whose `type`
holds a valid kind. -/
def ex9falsy : Json := .obj [("id", .str "1"), ("name", .str "X"),
  ("locationType", .str ""), ("type", .str "station"),
  ("location", .obj [("latitude", .int 1), ("longitude", .int 2)])]

/-- Stop JSON whose `locationType` is truthy but unrecognized while `type`
holds a valid kind. -/
def ex9truthy : Json := .obj [("id", .str "1"), ("name", .str "X"),
  ("locationType", .str "bogus"), ("type", .str "station"),
  ("location", .obj [("latitude", .int 1), ("longitude", .int 2)])]

/-- Stop JSON where both `locationType` and `type` hold valid kinds. -/
def ex9both : Json := .obj [("id", .str "1"), ("name", .str "X"),
  ("locationType", .str "station"), ("type", .str "stop"),
  ("location", .obj [("latitude", .int 1), ("longitude", .int 2)])]

/-- Parsed result of `ex9falsy`. -/
def stop9res : BvgApi.Stop := ⟨"1", "X", "station", ⟨1, 2⟩, none⟩

/-- Parsed value of the ISO string "2024-01-02T03:04:05+01:00". -/
def dtISO : BvgApi.PyDateTime := ⟨2024, 1, 2, 3, 4, 5, some 60⟩

/-- A well-formed timestamp value. -/
def isoWhen : Json := .str "2024-01-02T03:04:05+01:00"

/-- Departure fields with both `when` and `plannedWhen` present and truthy. -/
def fsBoth : List (String × Json) :=
  [("direction", .str "X"), ("when", isoWhen), ("plannedWhen", .str "2000-01-01")]

/-- Departure JSON with both timestamp fields. -/
def depBoth : Json := .obj fsBoth

/-- Parsed result of `depBoth`: the `when` field wins. -/
def depBothRes : BvgApi.Departure := ⟨"?", "X", dtISO, none, none, []⟩

/-- Departure fields with only `plannedWhen`. -/
def fsPlanned : List (String × Json) :=
  [("direction", .str "X"), ("plannedWhen", .str "2000-01-01")]

/-- Departure JSON with only `plannedWhen`. -/
def depPlanned : Json := .obj fsPlanned

/-- Parsed result of `depPlanned`: the planned timestamp is used. -/
def depPlannedRes : BvgApi.Departure := ⟨"?", "X", ⟨2000, 1, 1, 0, 0, 0, none⟩, none, none, []⟩

/-- Departure fields whose chosen timestamp is an unparsable string. -/
def fsBadWhen : List (String × Json) := [("direction", .str "X"), ("when", .str "garbage")]

/-- Departure fields with neither timestamp field. -/
def fsNoWhen : List (String × Json) := [("direction", .str "X")]

/-- Departure JSON whose `when` is the integer 5 rather than a string. -/
def dep1 : Json := .obj [("direction", .str "X"), ("when", .int 5)]

/-- Departure fields whose `delay` is a string. -/
def fsDelayBad : List (String × Json) :=
  [("direction", .str "X"), ("when", isoWhen), ("delay", .str "soon")]

/-- Departure fields whose `platform` is an integer. -/
def fsPlatBad : List (String × Json) :=
  [("direction", .str "X"), ("when", isoWhen), ("platform", .int 2)]

/-- Departure fields with explicit null `delay` and `platform`. -/
def fsNull : List (String × Json) :=
  [("direction", .str "X"), ("when", isoWhen), ("delay", .null), ("platform", .null)]

/-- Parsed result of `Json.obj fsNull`. -/
def depNullRes : BvgApi.Departure := ⟨"?", "X", dtISO, none, none, []⟩

/-- Departure JSON whose `delay` is the JSON boolean `true`. -/
def depTrue : Json := .obj [("direction", .str "X"), ("when", isoWhen), ("delay", .bool true)]

/-- Departure JSON with a non-string `direction`. -/
def depBadDir : Json := .obj [("direction", .int 7)]

/-- Departures payload whose `departures` field is not a list. -/
def pay2 : Json := .obj [("departures", .int 1)]

/-- Departures payload with one malformed element. -/
def pay3 : Json := .obj [("departures", .arr [depBadDir])]

/-- The remarks value of the spec scenario. -/
def exRem : Json :=
  .arr [.obj [("summary", .str "A")], .obj [("bad", .int 1)], .str "not-an-object"]

/-- Weather payload of the spec scenario. -/
def w8 : Json := .obj [("current", .obj [("temperature_2m", .float 3.8), ("is_day", .int 0)])]

/-- Current-weather fields with an explicit null `apparent_temperature`. -/
def cfs7null : List (String × Json) :=
  [("temperature_2m", .float 1), ("apparent_temperature", .null)]

/-- Weather payload with a present-but-null `apparent_temperature`. -/
def w7ce : Json := .obj [("current", .obj cfs7null)]

/-- Current-weather fields with a float `weather_code`. -/
def cfs7code : List (String × Json) :=
  [("temperature_2m", .float 1), ("weather_code", .float 3.5)]

/-- Current-weather fields with a string `apparent_temperature`. -/
def cfs7app : List (String × Json) :=
  [("temperature_2m", .float 1), ("apparent_temperature", .str "x")]

/-- Current-weather fields with a boolean `is_day`. -/
def cfs8day : List (String × Json) :=
  [("temperature_2m", .float 1), ("is_day", .bool true)]

/-- Current-weather fields with a string `is_day`. -/
def cfs8dayStr : List (String × Json) :=
  [("temperature_2m", .float 1), ("is_day", .str "yes")]

/-- Current-weather fields with an explicit null `is_day`. -/
def cfs8null : List (String × Json) :=
  [("temperature_2m", .float 1), ("is_day", .null)]

/-- Weather payload with a present-but-null `is_day`. -/
def w8null : Json := .obj [("current", .obj cfs8null)]

namespace BvgApi

theorem asFloat_ok {v : Json} (h : isNumberLike v = true) (k : String) :
    asFloat v k = .ok (pyFloat v) := by
  simp [asFloat, h]

theorem asFloat_err {v : Json} (h : isNumberLike v = false) (k : String) :
    asFloat v k = .error (k ++ " must be a number") := by
  simp [asFloat, h]

theorem parse_location_ok (lfs : List (String × Json)) (k : String)
    (hlat : isNumberLike (getField lfs "latitude") = true)
    (hlng : isNumberLike (getField lfs "longitude") = true) :
    parse_location (.obj lfs) k =
      .ok ⟨pyFloat (getField lfs "latitude"), pyFloat (getField lfs "longitude")⟩ := by
  simp only [parse_location, Json.getD]
  rw [asFloat_ok hlat, asFloat_ok hlng]

theorem parse_stop_ok (fs : List (String × Json)) (s : Stop)
    (h : parse_stop (Json.obj fs) = .ok s) :
    s.kind = parse_stop_kind (if (getField fs "locationType").truthy
        then getField fs "locationType" else getField fs "type")
    ∧ s.distance_m = (if isNumberLike (getField fs "distance") = true
        then some (ratTrunc (pyFloat (getField fs "distance"))) else none) := by
  dsimp only [parse_stop, Json.getD] at h
  cases h1 : asStr (getField fs "id") "stop.id" with
  | error m => simp only [h1] at h; exact Except.noConfusion h
  | ok i =>
    simp only [h1] at h
    cases h2 : asStr (getField fs "name") "stop.name" with
    | error m => simp only [h2] at h; exact Except.noConfusion h
    | ok n =>
      simp only [h2] at h
      cases h3 : parse_location (getField fs "location") "stop.location" with
      | error m => simp only [h3] at h; exact Except.noConfusion h
      | ok loc =>
        simp only [h3] at h
        cases h
        exact ⟨rfl, rfl⟩

theorem parse_stop_mk (fs lfs : List (String × Json)) (i n : String)
    (hid : getField fs "id" = .str i)
    (hname : getField fs "name" = .str n)
    (hloc : getField fs "location" = .obj lfs)
    (hlat : isNumberLike (getField lfs "latitude") = true)
    (hlng : isNumberLike (getField lfs "longitude") = true) :
    parse_stop (Json.obj fs) = .ok
      ⟨i, n,
       parse_stop_kind (if (getField fs "locationType").truthy
         then getField fs "locationType" else getField fs "type"),
       ⟨pyFloat (getField lfs "latitude"), pyFloat (getField lfs "longitude")⟩,
       (if isNumberLike (getField fs "distance") = true
         then some (ratTrunc (pyFloat (getField fs "distance"))) else none)⟩ := by
  dsimp only [parse_stop, Json.getD]
  rw [hid, hname, hloc, parse_location_ok lfs _ hlat hlng]
  rfl

theorem parse_stop_kind_mem (v : Json) :
    parse_stop_kind v = "station" ∨ parse_stop_kind v = "stop" := by
  cases v
  case str s =>
    dsimp only [parse_stop_kind]
    split
    case _ h => exact h
    case _ h => exact Or.inr rfl
  all_goals exact Or.inr rfl

theorem asOptionalInt_err (v : Json) (k : String) (hnull : v ≠ .null)
    (hint : isIntLike v = false) :
    asOptionalInt v k = .error (k ++ " must be an integer") := by
  cases v
  case null => exact absurd rfl hnull
  case int n => simp [isIntLike] at hint
  case bool b => simp [isIntLike] at hint
  all_goals rfl

theorem asOptionalStr_err (v : Json) (k : String) (hnull : v ≠ .null)
    (hstr : isStr v = false) :
    asOptionalStr v k = .error (k ++ " must be a string") := by
  cases v
  case null => exact absurd rfl hnull
  case str s => simp [isStr] at hstr
  all_goals rfl

theorem parse_datetime_not_str (v : Json) (h : isStr v = false) :
    parse_datetime v = .error "departure.when must be an ISO datetime string" := by
  cases v
  case str s => simp [isStr] at h
  all_goals rfl

theorem parse_datetime_none (s : String) (h : fromisoformat s = none) :
    parse_datetime (.str s) = .error ("Invalid datetime in departure: " ++ s) := by
  dsimp only [parse_datetime]
  rw [h]

theorem parse_departure_obj (fs : List (String × Json)) (dir : String)
    (hdir : getField fs "direction" = .str dir) :
    parse_departure (Json.obj fs) =
      (match parse_datetime (whenSource (Json.obj fs)) with
       | .error m => .error m
       | .ok w =>
         match asOptionalInt (getField fs "delay") "departure.delay" with
         | .error m => .error m
         | .ok ds =>
           match asOptionalStr (getField fs "platform") "departure.platform" with
           | .error m => .error m
           | .ok p => .ok ⟨lineNameOf (Json.obj fs), dir, w, ds, p,
               parse_remarks (getField fs "remarks")⟩) := by
  dsimp only [parse_departure, Json.getD]
  rw [hdir]
  rfl

theorem parse_departure_when_err (fs : List (String × Json)) (dir : String)
    (hdir : getField fs "direction" = .str dir) (m : String)
    (hw : parse_datetime (whenSource (Json.obj fs)) = .error m) :
    parse_departure (Json.obj fs) = .error m := by
  rw [parse_departure_obj fs dir hdir, hw]

theorem parse_departure_delay_err (fs : List (String × Json)) (dir : String)
    (hdir : getField fs "direction" = .str dir) (w : PyDateTime)
    (hw : parse_datetime (whenSource (Json.obj fs)) = .ok w) (m : String)
    (hdel : asOptionalInt (getField fs "delay") "departure.delay" = .error m) :
    parse_departure (Json.obj fs) = .error m := by
  rw [parse_departure_obj fs dir hdir, hw, hdel]

theorem parse_departure_platform_err (fs : List (String × Json)) (dir : String)
    (hdir : getField fs "direction" = .str dir) (w : PyDateTime)
    (hw : parse_datetime (whenSource (Json.obj fs)) = .ok w) (ds : Option Int)
    (hds : asOptionalInt (getField fs "delay") "departure.delay" = .ok ds) (m : String)
    (hp : asOptionalStr (getField fs "platform") "departure.platform" = .error m) :
    parse_departure (Json.obj fs) = .error m := by
  rw [parse_departure_obj fs dir hdir, hw, hds, hp]

theorem parse_departure_ok_parts (fs : List (String × Json)) (dep : Departure)
    (h : parse_departure (Json.obj fs) = .ok dep) :
    parse_datetime (whenSource (Json.obj fs)) = .ok dep.when
    ∧ asOptionalInt (getField fs "delay") "departure.delay" = .ok dep.delay_seconds
    ∧ asOptionalStr (getField fs "platform") "departure.platform" = .ok dep.platform := by
  dsimp only [parse_departure, Json.getD] at h
  cases h1 : asStr (getField fs "direction") "departure.direction" with
  | error m => simp only [h1] at h; exact Except.noConfusion h
  | ok dir =>
    simp only [h1] at h
    cases h2 : parse_datetime (whenSource (Json.obj fs)) with
    | error m => simp only [h2] at h; exact Except.noConfusion h
    | ok w =>
      simp only [h2] at h
      cases h3 : asOptionalInt (getField fs "delay") "departure.delay" with
      | error m => simp only [h3] at h; exact Except.noConfusion h
      | ok ds =>
        simp only [h3] at h
        cases h4 : asOptionalStr (getField fs "platform") "departure.platform" with
        | error m => simp only [h4] at h; exact Except.noConfusion h
        | ok p =>
          simp only [h4] at h
          cases h
          exact ⟨rfl, rfl, rfl⟩

theorem mapDepartureItems_err (xs : List Json) (x : Json) (hx : x ∈ xs)
    (he : isErrorE (parse_departure x) = true) :
    isErrorE (mapDepartureItems xs) = true := by
  induction xs with
  | nil => cases hx
  | cons y ys ih =>
    dsimp only [mapDepartureItems]
    cases h1 : parse_departure y with
    | error m => simp only [h1]; rfl
    | ok d =>
      simp only [h1]
      rcases List.mem_cons.mp hx with hxy | hxys
      · rw [hxy, h1] at he
        simp [isErrorE] at he
      · have hys := ih hxys
        cases h2 : mapDepartureItems ys with
        | error m2 => simp only [h2]; rfl
        | ok ds => rw [h2] at hys; simp [isErrorE] at hys

theorem remarksFrom_eq (xs : List Json) : remarksFrom xs = xs.filterMap summaryOf := by
  induction xs with
  | nil => rfl
  | cons x xs ih =>
    rw [List.filterMap_cons]
    cases x
    case obj gfs =>
      dsimp only [remarksFrom, summaryOf, Json.getD]
      cases hs : getField gfs "summary" <;> simp only [hs] <;>
        first
        | exact ih
        | exact congrArg _ ih
    all_goals
      dsimp only [remarksFrom, summaryOf]
      exact ih

end BvgApi

/-- C4: a stop JSON object with string `id` and `name` and a `location`
object with numeric `latitude` and `longitude` maps successfully, the
coordinates round-tripping losslessly (integers widened to float, floats
modelled as exact rationals); the spec scenario without `distance` yields
`Stop(id="1", name="X", kind="stop", location=(52.5,13.4), distance_m=None)`. -/
theorem C4_theorem :
    (∀ (fs lfs : List (String × Json)) (i n : String),
      getField fs "id" = .str i →
      getField fs "name" = .str n →
      getField fs "location" = .obj lfs →
      isNumberLike (getField lfs "latitude") = true →
      isNumberLike (getField lfs "longitude") = true →
      ∃ s : BvgApi.Stop, BvgApi.map_stop (Json.obj fs) = .ok s ∧ s.id = i ∧ s.name = n ∧
        s.location.latitude = pyFloat (getField lfs "latitude") ∧
        s.location.longitude = pyFloat (getField lfs "longitude"))
    ∧ BvgApi.map_stop ex4 = .ok ⟨"1", "X", "stop", ⟨52.5, 13.4⟩, none⟩ := by
  constructor
  · intro fs lfs i n hid hname hloc hlat hlng
    exact ⟨_, BvgApi.parse_stop_mk fs lfs i n hid hname hloc hlat hlng, rfl, rfl, rfl, rfl⟩
  · with_unfolding_all rfl

/-- C4 witness: the general part applied to a stop with an integer
latitude, which is widened to the float 52. -/
theorem C4_witness :
    ∃ s : BvgApi.Stop, BvgApi.map_stop ex4i = .ok s ∧ s.id = "7" ∧ s.name = "N" ∧
      s.location.latitude = pyFloat (.int 52) ∧ s.location.longitude = pyFloat (.float 13.4) :=
  C4_theorem.1 [("id", .str "7"), ("name", .str "N"),
    ("location", .obj [("latitude", .int 52), ("longitude", .float 13.4)])]
    [("latitude", .int 52), ("longitude", .float 13.4)] "7" "N" rfl rfl rfl rfl rfl

/-- C5: every successfully mapped stop has kind `"station"` or `"stop"`;
a string source value equal to `"station"` or `"stop"` case-insensitively
normalizes to its lowercase form, and any other source value (non-string
or unrecognized) yields the default `"stop"`. -/
theorem C5_theorem :
    (∀ (d : Json) (s : BvgApi.Stop), BvgApi.map_stop d = .ok s →
      s.kind = "station" ∨ s.kind = "stop")
    ∧ (∀ v : Json, isStr v = false → BvgApi.parse_stop_kind v = "stop")
    ∧ (∀ t : String, (BvgApi.pyLower t = "station" ∨ BvgApi.pyLower t = "stop") →
        BvgApi.parse_stop_kind (.str t) = BvgApi.pyLower t)
    ∧ (∀ t : String, ¬(BvgApi.pyLower t = "station" ∨ BvgApi.pyLower t = "stop") →
        BvgApi.parse_stop_kind (.str t) = "stop") := by
  refine ⟨?_, ?_, ?_, ?_⟩
  · intro d s h
    cases d
    case obj fs =>
      rw [(BvgApi.parse_stop_ok fs s h).1]
      exact BvgApi.parse_stop_kind_mem _
    all_goals exact Except.noConfusion h
  · intro v h
    cases v
    case str t => simp [isStr] at h
    all_goals rfl
  · intro t h
    dsimp only [BvgApi.parse_stop_kind]
    rw [if_pos h]
  · intro t h
    dsimp only [BvgApi.parse_stop_kind]
    rw [if_neg h]

/-- C6 counterexample: the claim asserts a present `distance_m` is always
nonnegative, but the mapper performs no sign check: `distance: -5` is kept
as `distance_m = -5`, which is negative. -/
theorem C6_counterexample :
    BvgApi.map_stop stopNeg = .ok ⟨"1", "X", "stop", ⟨52.5, 13.4⟩, some (-5)⟩
    ∧ (-5 : Int) < 0 :=
  ⟨by with_unfolding_all rfl, by decide⟩

/-- C6 amended: `distance_m` is `None` unless the `distance` field is
present and numeric, in which case it is truncated toward zero to an
integer (120.7 yields 120); no sign check is performed, so the result is
whatever integer the source value truncates to. -/
theorem C6_theorem :
    (∀ (fs : List (String × Json)) (s : BvgApi.Stop),
      BvgApi.map_stop (Json.obj fs) = .ok s →
      (isNumberLike (getField fs "distance") = false → s.distance_m = none)
      ∧ (isNumberLike (getField fs "distance") = true →
          s.distance_m = some (ratTrunc (pyFloat (getField fs "distance")))))
    ∧ BvgApi.map_stop stop120 = .ok ⟨"1", "X", "stop", ⟨52.5, 13.4⟩, some 120⟩ := by
  constructor
  · intro fs s h
    have hd := (BvgApi.parse_stop_ok fs s h).2
    constructor
    · intro hnum
      rw [hd, if_neg (by simp [hnum])]
    · intro hnum
      rw [hd, if_pos hnum]
  · with_unfolding_all rfl

/-- C6 witness: the general part applied to the stop with `distance:
120.7`, whose truncation evaluates to 120. -/
theorem C6_witness :
    (some (ratTrunc (pyFloat (getField [("id", Json.str "1"), ("name", Json.str "X"),
      ("location", Json.obj [("latitude", Json.float 52.5), ("longitude", Json.float 13.4)]),
      ("distance", Json.float 120.7)] "distance"))) = some (120 : Int))
    ∧ (⟨"1", "X", "stop", ⟨52.5, 13.4⟩, some 120⟩ : BvgApi.Stop).distance_m
        = some (ratTrunc (pyFloat (getField [("id", Json.str "1"), ("name", Json.str "X"),
          ("location", Json.obj [("latitude", Json.float 52.5), ("longitude", Json.float 13.4)]),
          ("distance", Json.float 120.7)] "distance"))) :=
  ⟨by with_unfolding_all rfl,
   (C6_theorem.1 [("id", .str "1"), ("name", .str "X"),
      ("location", .obj [("latitude", .float 52.5), ("longitude", .float 13.4)]),
      ("distance", .float 120.7)] ⟨"1", "X", "stop", ⟨52.5, 13.4⟩, some 120⟩
      (by with_unfolding_all rfl)).2 rfl⟩

/-- C9: the stop kind is derived from `locationType` with a falsy-fallback
to `type`: the kind of a successfully mapped stop is `parse_stop_kind` of the
first truthy of the two fields; concretely a falsy `locationType` lets a
valid `type` through, while a truthy but unrecognized `locationType`
shadows a valid `type`, and a truthy valid `locationType` wins. -/
theorem C9_theorem :
    (∀ (fs : List (String × Json)) (s : BvgApi.Stop),
      BvgApi.map_stop (Json.obj fs) = .ok s →
      s.kind = BvgApi.parse_stop_kind (if (getField fs "locationType").truthy
        then getField fs "locationType" else getField fs "type"))
    ∧ BvgApi.map_stop ex9falsy = .ok ⟨"1", "X", "station", ⟨1, 2⟩, none⟩
    ∧ BvgApi.map_stop ex9truthy = .ok ⟨"1", "X", "stop", ⟨1, 2⟩, none⟩
    ∧ BvgApi.map_stop ex9both = .ok ⟨"1", "X", "station", ⟨1, 2⟩, none⟩ := by
  refine ⟨?_, ?_, ?_, ?_⟩
  · intro fs s h
    exact (BvgApi.parse_stop_ok fs s h).1
  · with_unfolding_all rfl
  · with_unfolding_all rfl
  · with_unfolding_all rfl

/-- C9 witness: the general part applied to the stop whose `locationType`
is the empty string, showing the kind came from the `type` field. -/
theorem C9_witness :
    stop9res.kind = BvgApi.parse_stop_kind
      (if (getField [("id", Json.str "1"), ("name", Json.str "X"),
          ("locationType", Json.str ""), ("type", Json.str "station"),
          ("location", Json.obj [("latitude", Json.int 1), ("longitude", Json.int 2)])]
          "locationType").truthy
        then getField [("id", Json.str "1"), ("name", Json.str "X"),
          ("locationType", Json.str ""), ("type", Json.str "station"),
          ("location", Json.obj [("latitude", Json.int 1), ("longitude", Json.int 2)])]
          "locationType"
        else getField [("id", Json.str "1"), ("name", Json.str "X"),
          ("locationType", Json.str ""), ("type", Json.str "station"),
          ("location", Json.obj [("latitude", Json.int 1), ("longitude", Json.int 2)])]
          "type") :=
  C9_theorem.1 [("id", .str "1"), ("name", .str "X"),
    ("locationType", .str ""), ("type", .str "station"),
    ("location", .obj [("latitude", .int 1), ("longitude", .int 2)])]
    stop9res (by with_unfolding_all rfl)

/-- C5 witness: `"STATION"` normalizes to `"station"`, `"bogus"` and a
non-string source default to `"stop"`, and a concrete mapped stop has an
allowed kind. -/
theorem C5_witness :
    BvgApi.parse_stop_kind (.str "STATION") = "station"
    ∧ BvgApi.parse_stop_kind (.str "bogus") = "stop"
    ∧ BvgApi.parse_stop_kind (.int 3) = "stop"
    ∧ (stop9res.kind = "station" ∨ stop9res.kind = "stop") :=
  ⟨(C5_theorem.2.2.1 "STATION" (Or.inl (by decide))).trans (by decide),
   C5_theorem.2.2.2 "bogus" (by decide),
   C5_theorem.2.1 (.int 3) rfl,
   C5_theorem.1 ex9falsy stop9res (by with_unfolding_all rfl)⟩

/-- C1 counterexample: with `when` equal to the integer 5, the departure
mapping fails, but the error is the fixed message
"departure.when must be an ISO datetime string", which does not contain
the offending raw text (no character of "5" occurs in it), contradicting
the claim that the shape error includes the offending raw text in the
non-string case. -/
theorem C1_counterexample :
    BvgApi.parse_departure dep1 = .error "departure.when must be an ISO datetime string"
    ∧ ("departure.when must be an ISO datetime string").toList.contains '5' = false :=
  ⟨rfl, rfl⟩

/-- C1 amended: the timestamp source is the first present and truthy of
`when` and `plannedWhen` (`whenSource`); the chosen value must be a string
that parses as ISO-8601; a string that fails to parse yields an error
including the offending raw text, while a missing or non-string chosen
value yields the fixed message "departure.when must be an ISO datetime
string"; on success the departure's `when` is the parse of the chosen
value. -/
theorem C1_theorem :
    ∀ (fs : List (String × Json)) (dir : String),
      getField fs "direction" = .str dir →
      ((isStr (BvgApi.whenSource (Json.obj fs)) = false →
        BvgApi.parse_departure (Json.obj fs) =
          .error "departure.when must be an ISO datetime string")
      ∧ (∀ s : String, BvgApi.whenSource (Json.obj fs) = .str s →
          BvgApi.fromisoformat s = none →
          BvgApi.parse_departure (Json.obj fs) =
            .error ("Invalid datetime in departure: " ++ s))
      ∧ (∀ dep : BvgApi.Departure, BvgApi.parse_departure (Json.obj fs) = .ok dep →
          BvgApi.parse_datetime (BvgApi.whenSource (Json.obj fs)) = .ok dep.when)) := by
  intro fs dir hdir
  refine ⟨?_, ?_, ?_⟩
  · intro hn
    exact BvgApi.parse_departure_when_err fs dir hdir _ (BvgApi.parse_datetime_not_str _ hn)
  · intro s hs hnone
    refine BvgApi.parse_departure_when_err fs dir hdir _ ?_
    rw [hs]
    exact BvgApi.parse_datetime_none s hnone
  · intro dep h
    exact (BvgApi.parse_departure_ok_parts fs dep h).1

/-- C1 witness: with both fields present `when` wins; with only
`plannedWhen` it is used; an unparsable string and a missing value fail
with their respective messages. -/
theorem C1_witness :
    BvgApi.parse_datetime (BvgApi.whenSource depBoth) = .ok dtISO
    ∧ BvgApi.parse_datetime (BvgApi.whenSource depPlanned) = .ok ⟨2000, 1, 1, 0, 0, 0, none⟩
    ∧ BvgApi.parse_departure (Json.obj fsBadWhen) =
        .error ("Invalid datetime in departure: " ++ "garbage")
    ∧ BvgApi.parse_departure (Json.obj fsNoWhen) =
        .error "departure.when must be an ISO datetime string" :=
  ⟨(C1_theorem fsBoth "X" rfl).2.2 depBothRes rfl,
   (C1_theorem fsPlanned "X" rfl).2.2 depPlannedRes rfl,
   (C1_theorem fsBadWhen "X" rfl).2.1 "garbage" rfl rfl,
   (C1_theorem fsNoWhen "X" rfl).1 rfl⟩

/-- C2: `map_departures` fails with a shape error when the payload is not
an object or its `departures` field is missing or not a list, and any
single malformed element fails the whole call (the result is an error, so
no partial list is returned). -/
theorem C2_theorem :
    (∀ j : Json, (∀ fs : List (String × Json), j ≠ .obj fs) →
      BvgApi.map_departures j = .error "Unexpected response shape for departures")
    ∧ (∀ fs : List (String × Json),
        (∀ xs : List Json, getField fs "departures" ≠ .arr xs) →
        BvgApi.map_departures (.obj fs) =
          .error "Departures payload is missing the departures list")
    ∧ (∀ (fs : List (String × Json)) (items : List Json) (x : Json),
        getField fs "departures" = .arr items → x ∈ items →
        isErrorE (BvgApi.parse_departure x) = true →
        isErrorE (BvgApi.map_departures (.obj fs)) = true) := by
  refine ⟨?_, ?_, ?_⟩
  · intro j hj
    cases j
    case obj fs => exact absurd rfl (hj fs)
    all_goals rfl
  · intro fs hne
    dsimp only [BvgApi.map_departures, Json.getD]
    cases hd : getField fs "departures"
    case arr xs => exact absurd hd (hne xs)
    all_goals simp only [hd]
  · intro fs items x hd hx he
    dsimp only [BvgApi.map_departures, Json.getD]
    simp only [hd]
    exact BvgApi.mapDepartureItems_err items x hx he

/-- C2 witness: a string payload, a payload whose `departures` is the
integer 1, and a payload whose single element has integer `direction`
all fail. -/
theorem C2_witness :
    BvgApi.map_departures (.str "nope") = .error "Unexpected response shape for departures"
    ∧ BvgApi.map_departures pay2 = .error "Departures payload is missing the departures list"
    ∧ isErrorE (BvgApi.map_departures pay3) = true :=
  ⟨C2_theorem.1 (.str "nope") (fun _ h => Json.noConfusion h),
   C2_theorem.2.1 [("departures", .int 1)] (fun _ h => Json.noConfusion h),
   C2_theorem.2.2 [("departures", .arr [depBadDir])] [depBadDir] depBadDir rfl
     (List.Mem.head _) rfl⟩

/-- C3: remarks extraction is total and equals, for every input value, the
in-order `summary` strings of the list items that are objects with a
string `summary` (any other shape contributes nothing, and a non-list
value yields the empty sequence); the spec scenario yields exactly ["A"]. -/
theorem C3_theorem :
    (∀ v : Json, BvgApi.parse_remarks v =
      (match v with
       | .arr xs => xs.filterMap summaryOf
       | _ => []))
    ∧ BvgApi.parse_remarks exRem = ["A"] := by
  constructor
  · intro v
    cases v
    case arr xs => exact BvgApi.remarksFrom_eq xs
    all_goals rfl
  · rfl

/-- C10 counterexample: a `delay` holding the JSON boolean `true` — a
present, non-null value that is not an integer — does not fail: in Python
`isinstance(True, int)` holds, so the departure maps successfully with
`delay_seconds = 1`. -/
theorem C10_counterexample :
    BvgApi.parse_departure depTrue =
      .ok ⟨"?", "X", dtISO, some 1, none, []⟩ := rfl

/-- C10 amended: a present `delay` that is neither null nor accepted by the
integer check (booleans pass it, coercing to 1/0) fails the departure with
"departure.delay must be an integer"; a present `platform` that is neither
null nor a string fails with "departure.platform must be a string"; an
absent or null `delay`/`platform` yields `None` for the corresponding
field of a successfully mapped departure. -/
theorem C10_theorem :
    (∀ (fs : List (String × Json)) (dir : String) (w : BvgApi.PyDateTime),
      getField fs "direction" = .str dir →
      BvgApi.parse_datetime (BvgApi.whenSource (Json.obj fs)) = .ok w →
      ((getField fs "delay" ≠ .null → isIntLike (getField fs "delay") = false →
          BvgApi.parse_departure (Json.obj fs) =
            .error "departure.delay must be an integer")
      ∧ (∀ ds : Option Int,
          BvgApi.asOptionalInt (getField fs "delay") "departure.delay" = .ok ds →
          getField fs "platform" ≠ .null → isStr (getField fs "platform") = false →
          BvgApi.parse_departure (Json.obj fs) =
            .error "departure.platform must be a string")))
    ∧ (∀ (fs : List (String × Json)) (dep : BvgApi.Departure),
        BvgApi.parse_departure (Json.obj fs) = .ok dep →
        (getField fs "delay" = .null → dep.delay_seconds = none)
        ∧ (getField fs "platform" = .null → dep.platform = none)) := by
  constructor
  · intro fs dir w hdir hw
    constructor
    · intro hnn hni
      exact BvgApi.parse_departure_delay_err fs dir hdir w hw _
        (BvgApi.asOptionalInt_err _ _ hnn hni)
    · intro ds hds hnn hns
      exact BvgApi.parse_departure_platform_err fs dir hdir w hw ds hds _
        (BvgApi.asOptionalStr_err _ _ hnn hns)
  · intro fs dep h
    have parts := BvgApi.parse_departure_ok_parts fs dep h
    constructor
    · intro hnull
      rw [hnull] at parts
      have hnone : Except.ok (none : Option Int) = Except.ok dep.delay_seconds := parts.2.1
      exact (Except.ok.inj hnone).symm
    · intro hnull
      rw [hnull] at parts
      have hnone : Except.ok (none : Option String) = Except.ok dep.platform := parts.2.2
      exact (Except.ok.inj hnone).symm

/-- C10 witness: a string `delay` and an integer `platform` fail with the
field-naming messages, and explicit null `delay`/`platform` map to `None`. -/
theorem C10_witness :
    BvgApi.parse_departure (Json.obj fsDelayBad) =
      .error "departure.delay must be an integer"
    ∧ BvgApi.parse_departure (Json.obj fsPlatBad) =
      .error "departure.platform must be a string"
    ∧ depNullRes.delay_seconds = none
    ∧ depNullRes.platform = none :=
  ⟨(C10_theorem.1 fsDelayBad "X" dtISO rfl rfl).1 (fun h => Json.noConfusion h) rfl,
   (C10_theorem.1 fsPlatBad "X" dtISO rfl rfl).2 none rfl (fun h => Json.noConfusion h) rfl,
   (C10_theorem.2 fsNull depNullRes rfl).1 rfl,
   (C10_theorem.2 fsNull depNullRes rfl).2 rfl⟩

namespace Weather

theorem wAsFloat_ok {v : Json} (h : isNumberLike v = true) (k : String) :
    asFloat v k = .ok (pyFloat v) := by
  simp [asFloat, h]

theorem wOptFloat_eq {v : Json} (h : optFloatOk v = true) (k : String) :
    asOptionalFloat v k = .ok (optFloatVal v) := by
  cases v
  all_goals simp_all [asOptionalFloat, optFloatOk, optFloatVal, isNumberLike]

theorem wOptFloat_err (v : Json) (k : String) (hnull : v ≠ .null)
    (h : isNumberLike v = false) :
    asOptionalFloat v k = .error (k ++ " must be a number") := by
  cases v
  case null => exact absurd rfl hnull
  all_goals simp_all [asOptionalFloat, isNumberLike]

theorem wOptInt_eq {v : Json} (h : optIntOk v = true) (k : String) :
    asOptionalInt v k = .ok (optIntVal v) := by
  cases v
  all_goals simp_all [asOptionalInt, optIntOk, optIntVal, isIntLike]

theorem wOptBool_eq {v : Json} (h : optBoolOk v = true) (k : String) :
    asOptionalBool v k = .ok (optBoolVal v) := by
  cases v
  all_goals simp_all [asOptionalBool, optBoolOk, optBoolVal]

theorem wOptBool_err (v : Json) (k : String) (h : optBoolOk v = false) :
    asOptionalBool v k = .error (k ++ " must be a boolean") := by
  cases v
  all_goals simp_all [asOptionalBool, optBoolOk]

theorem mcw_current (pfs cfs : List (String × Json))
    (h : getField pfs "current" = .obj cfs) :
    map_current_weather (.obj pfs) = map_current_fields (.obj cfs) := by
  dsimp only [map_current_weather, Json.getD]
  rw [h]

theorem mcf_ok (cfs : List (String × Json))
    (htemp : isNumberLike (getField cfs "temperature_2m") = true)
    (happ : optFloatOk (getField cfs "apparent_temperature") = true)
    (hwind : optFloatOk (getField cfs "wind_speed_10m") = true)
    (hcode : optIntOk (getField cfs "weather_code") = true)
    (hday : optBoolOk (getField cfs "is_day") = true) :
    map_current_fields (.obj cfs) =
      .ok ⟨pyFloat (getField cfs "temperature_2m"),
           optFloatVal (getField cfs "apparent_temperature"),
           optFloatVal (getField cfs "wind_speed_10m"),
           optIntVal (getField cfs "weather_code"),
           optBoolVal (getField cfs "is_day")⟩ := by
  dsimp only [map_current_fields, Json.getD]
  rw [wAsFloat_ok htemp, wOptFloat_eq happ, wOptFloat_eq hwind, wOptInt_eq hcode,
    wOptBool_eq hday]

theorem mcf_code_float (cfs : List (String × Json)) (q : Rat)
    (htemp : isNumberLike (getField cfs "temperature_2m") = true)
    (happ : optFloatOk (getField cfs "apparent_temperature") = true)
    (hwind : optFloatOk (getField cfs "wind_speed_10m") = true)
    (hcode : getField cfs "weather_code" = .float q) :
    map_current_fields (.obj cfs) = .error "current.weather_code must be an integer" := by
  dsimp only [map_current_fields, Json.getD]
  rw [wAsFloat_ok htemp, wOptFloat_eq happ, wOptFloat_eq hwind, hcode]
  rfl

theorem mcf_app_err (cfs : List (String × Json))
    (htemp : isNumberLike (getField cfs "temperature_2m") = true)
    (hnn : getField cfs "apparent_temperature" ≠ .null)
    (hnum : isNumberLike (getField cfs "apparent_temperature") = false) :
    map_current_fields (.obj cfs) =
      .error "current.apparent_temperature must be a number" := by
  dsimp only [map_current_fields, Json.getD]
  rw [wAsFloat_ok htemp, wOptFloat_err _ _ hnn hnum]
  rfl

theorem mcf_wind_err (cfs : List (String × Json))
    (htemp : isNumberLike (getField cfs "temperature_2m") = true)
    (happ : optFloatOk (getField cfs "apparent_temperature") = true)
    (hnn : getField cfs "wind_speed_10m" ≠ .null)
    (hnum : isNumberLike (getField cfs "wind_speed_10m") = false) :
    map_current_fields (.obj cfs) = .error "current.wind_speed_10m must be a number" := by
  dsimp only [map_current_fields, Json.getD]
  rw [wAsFloat_ok htemp, wOptFloat_eq happ, wOptFloat_err _ _ hnn hnum]
  rfl

theorem mcf_day_err (cfs : List (String × Json))
    (htemp : isNumberLike (getField cfs "temperature_2m") = true)
    (happ : optFloatOk (getField cfs "apparent_temperature") = true)
    (hwind : optFloatOk (getField cfs "wind_speed_10m") = true)
    (hcode : optIntOk (getField cfs "weather_code") = true)
    (hday : optBoolOk (getField cfs "is_day") = false) :
    map_current_fields (.obj cfs) = .error "current.is_day must be a boolean" := by
  dsimp only [map_current_fields, Json.getD]
  rw [wAsFloat_ok htemp, wOptFloat_eq happ, wOptFloat_eq hwind, wOptInt_eq hcode,
    wOptBool_err _ _ hday]
  rfl

end Weather

/-- C7 counterexample: an `apparent_temperature` present with the JSON
null value — a present, non-numeric value — does not fail: `dict.get`
cannot distinguish it from an absent field, so the call succeeds with
`apparent_temperature_c = None`, contradicting the claim that any present
non-numeric value fails. -/
theorem C7_counterexample :
    Weather.map_current_weather w7ce = .ok ⟨1, none, none, none, none⟩ := by
  with_unfolding_all rfl

/-- C7 amended: a `weather_code` present with a float value fails with
"current.weather_code must be an integer" (strict integer check), an
absent `apparent_temperature` yields `None` with no error, and an
`apparent_temperature` or `wind_speed_10m` present with a value that is
neither null nor numeric fails (a present null is indistinguishable from
an absent field and yields `None`). -/
theorem C7_theorem :
    ∀ (pfs cfs : List (String × Json)),
      getField pfs "current" = .obj cfs →
      isNumberLike (getField cfs "temperature_2m") = true →
      ((optFloatOk (getField cfs "apparent_temperature") = true →
        optFloatOk (getField cfs "wind_speed_10m") = true →
        ∀ q : Rat, getField cfs "weather_code" = .float q →
          Weather.map_current_weather (.obj pfs) =
            .error "current.weather_code must be an integer")
      ∧ (getField cfs "apparent_temperature" = .null →
         optFloatOk (getField cfs "wind_speed_10m") = true →
         optIntOk (getField cfs "weather_code") = true →
         optBoolOk (getField cfs "is_day") = true →
         ∃ w : Weather.CurrentWeather,
           Weather.map_current_weather (.obj pfs) = .ok w
           ∧ w.apparent_temperature_c = none)
      ∧ (getField cfs "apparent_temperature" ≠ .null →
         isNumberLike (getField cfs "apparent_temperature") = false →
         Weather.map_current_weather (.obj pfs) =
           .error "current.apparent_temperature must be a number")
      ∧ (optFloatOk (getField cfs "apparent_temperature") = true →
         getField cfs "wind_speed_10m" ≠ .null →
         isNumberLike (getField cfs "wind_speed_10m") = false →
         Weather.map_current_weather (.obj pfs) =
           .error "current.wind_speed_10m must be a number")) := by
  intro pfs cfs hcur htemp
  refine ⟨?_, ?_, ?_, ?_⟩
  · intro happ hwind q hcode
    rw [Weather.mcw_current pfs cfs hcur]
    exact Weather.mcf_code_float cfs q htemp happ hwind hcode
  · intro happ hwind hcode hday
    rw [Weather.mcw_current pfs cfs hcur]
    refine ⟨_, Weather.mcf_ok cfs htemp (by rw [happ]; rfl) hwind hcode hday, ?_⟩
    show optFloatVal (getField cfs "apparent_temperature") = none
    rw [happ]
    rfl
  · intro hnn hnum
    rw [Weather.mcw_current pfs cfs hcur]
    exact Weather.mcf_app_err cfs htemp hnn hnum
  · intro happ hnn hnum
    rw [Weather.mcw_current pfs cfs hcur]
    exact Weather.mcf_wind_err cfs htemp happ hnn hnum

/-- C7 witness: `weather_code: 3.5` fails with the integer message, and a
string `apparent_temperature` fails with the number message. -/
theorem C7_witness :
    Weather.map_current_weather (.obj [("current", .obj cfs7code)]) =
      .error "current.weather_code must be an integer"
    ∧ Weather.map_current_weather (.obj [("current", .obj cfs7app)]) =
      .error "current.apparent_temperature must be a number" :=
  ⟨(C7_theorem [("current", .obj cfs7code)] cfs7code rfl rfl).1 rfl rfl 3.5 rfl,
   (C7_theorem [("current", .obj cfs7app)] cfs7app rfl rfl).2.2.1
     (fun h => Json.noConfusion h) rfl⟩

/-- C8 counterexample: an `is_day` present with the JSON null value — a
present type that is neither boolean nor integer — does not fail:
`dict.get` cannot distinguish it from an absent field, so the call
succeeds with `is_day = None`, contradicting the claim that any other
present type fails with a shape error. -/
theorem C8_counterexample :
    Weather.map_current_weather w8null = .ok ⟨1, none, none, none, none⟩ := by
  with_unfolding_all rfl

/-- C8 amended: the spec scenario maps to `CurrentWeather(temperature_c=3.8,
apparent_temperature_c=None, wind_speed_kmh=None, weather_code=None,
is_day=False)`; in general `is_day` accepts a boolean as-is, coerces an
integer to a boolean (nonzero means true), treats a present null like an
absent field (yielding `None` with no error), and fails on any other
present type with "current.is_day must be a boolean". -/
theorem C8_theorem :
    Weather.map_current_weather w8 = .ok ⟨3.8, none, none, none, some false⟩
    ∧ (∀ (pfs cfs : List (String × Json)),
        getField pfs "current" = .obj cfs →
        isNumberLike (getField cfs "temperature_2m") = true →
        optFloatOk (getField cfs "apparent_temperature") = true →
        optFloatOk (getField cfs "wind_speed_10m") = true →
        optIntOk (getField cfs "weather_code") = true →
        ((∀ b : Bool, getField cfs "is_day" = .bool b →
           ∃ w : Weather.CurrentWeather,
             Weather.map_current_weather (.obj pfs) = .ok w ∧ w.is_day = some b)
        ∧ (∀ n : Int, getField cfs "is_day" = .int n →
           ∃ w : Weather.CurrentWeather,
             Weather.map_current_weather (.obj pfs) = .ok w ∧ w.is_day = some (n != 0))
        ∧ (getField cfs "is_day" = .null →
           ∃ w : Weather.CurrentWeather,
             Weather.map_current_weather (.obj pfs) = .ok w ∧ w.is_day = none)
        ∧ (optBoolOk (getField cfs "is_day") = false →
           Weather.map_current_weather (.obj pfs) =
             .error "current.is_day must be a boolean"))) := by
  constructor
  · with_unfolding_all rfl
  · intro pfs cfs hcur htemp happ hwind hcode
    refine ⟨?_, ?_, ?_, ?_⟩
    · intro b hb
      rw [Weather.mcw_current pfs cfs hcur]
      refine ⟨_, Weather.mcf_ok cfs htemp happ hwind hcode (by rw [hb]; rfl), ?_⟩
      show optBoolVal (getField cfs "is_day") = some b
      rw [hb]
      rfl
    · intro n hn
      rw [Weather.mcw_current pfs cfs hcur]
      refine ⟨_, Weather.mcf_ok cfs htemp happ hwind hcode (by rw [hn]; rfl), ?_⟩
      show optBoolVal (getField cfs "is_day") = some (n != 0)
      rw [hn]
      rfl
    · intro hnull
      rw [Weather.mcw_current pfs cfs hcur]
      refine ⟨_, Weather.mcf_ok cfs htemp happ hwind hcode (by rw [hnull]; rfl), ?_⟩
      show optBoolVal (getField cfs "is_day") = none
      rw [hnull]
      rfl
    · intro hday
      rw [Weather.mcw_current pfs cfs hcur]
      exact Weather.mcf_day_err cfs htemp happ hwind hcode hday

/-- C8 witness: a boolean `is_day` passes through as-is, a present null
`is_day` yields `None` without error, and a string `is_day` fails with
the boolean message. -/
theorem C8_witness :
    (∃ w : Weather.CurrentWeather,
      Weather.map_current_weather (.obj [("current", .obj cfs8day)]) = .ok w
      ∧ w.is_day = some true)
    ∧ (∃ w : Weather.CurrentWeather,
        Weather.map_current_weather (.obj [("current", .obj cfs8null)]) = .ok w
        ∧ w.is_day = none)
    ∧ Weather.map_current_weather (.obj [("current", .obj cfs8dayStr)]) =
      .error "current.is_day must be a boolean" :=
  ⟨(C8_theorem.2 [("current", .obj cfs8day)] cfs8day rfl rfl rfl rfl rfl).1 true rfl,
   (C8_theorem.2 [("current", .obj cfs8null)] cfs8null rfl rfl rfl rfl rfl).2.2.1 rfl,
   (C8_theorem.2 [("current", .obj cfs8dayStr)] cfs8dayStr rfl rfl rfl rfl rfl).2.2.2 rfl⟩
